import Mathlib

/-!
Verification of the gradebook search widget controller
(grade/amd/src/searchwidget/basewidget.js).

The controller is shallowly embedded: the DOM subtree the controller reads
and writes becomes an explicit state record, the promise outcomes become
Except values, and the external collaborators (template renderer, DOM
queries on injected markup) become an environment record of functions.
-/

namespace BaseWidget

/-- Contents of the search-results region of the widget container. The DOM
is abstracted to which template, if any, currently fills the region: raw
markup as injected, the rendered loading template, or the rendered
searchresults template together with the item list it was given. -/
inductive Region (α : Type) where
  | markup (source : String)
  | loading
  | rendered (items : List α)

/-- State of one widget instance as far as the controller observes or
mutates it: the container innerHTML, the contents of the unsearchable
region, the search-results region, the value and focus of the search
input, whether the d-none class hides the clear button, whether the event
listeners were wired, and the last error handed to the notification
surface (Notification.exception). -/
structure Widget (α : Type) where
  containerHTML : Option String
  unsearchableHTML : String
  resultsRegion : Region α
  inputValue : String
  inputFocused : Bool
  clearHidden : Bool
  listeners : Bool
  notified : Option String

/-- External collaborators of the controller. Which sub-regions a
querySelector call finds, and what the fresh controls hold, are functions
of the injected markup; the template renderForPromise calls are
deterministic in their inputs and may fail, and only success or failure
matters to the claims, so the html and js payloads are elided. -/
structure Env (α : Type) where
  hasUnsearchableRegion : String → Bool
  hasSearchInput : String → Bool
  unsearchableInit : String → String
  markupInputValue : String → String
  markupClearHidden : String → Bool
  renderLoadingTpl : Except String Unit
  renderResultsTpl : List α → Except String Unit

/-- Translation of debounceCallee: when a search query is present the
caller-supplied search function filters the data, otherwise the data is
returned as is. -/
def debounceCallee {α : Type} (searchValue : String) (data : List α)
    (searchFunction : List α → String → List α) : List α :=
  if searchValue.length > 0 then
    searchFunction data searchValue
  else
    data

/-- Translation of showLoader: renderForPromise on the loading template,
then replaceNodeContents on the given region. A template failure is not
caught and propagates as the rejection of the returned promise. -/
def showLoader {α : Type} (env : Env α) (container : Region α) :
    Except String (Region α) :=
  match env.renderLoadingTpl with
  | .error e => .error e
  | .ok _ => .ok Region.loading

/-- Translation of renderSearchResults: renderForPromise on the
searchresults template with the filtered data, then replaceNodeContents on
the results region, discarding whatever the region held before. A template
failure is not caught and propagates. -/
def renderSearchResults {α : Type} (env : Env α)
    (searchResultsContainer : Region α) (searchResultsData : List α) :
    Except String (Region α) :=
  match env.renderResultsTpl searchResultsData with
  | .error e => .error e
  | .ok _ => .ok (Region.rendered searchResultsData)

/-- Translation of registerListenerEvents: when the search input is absent
from the container the function returns at once, touching nothing;
otherwise it focuses the input and wires the debounced input handler and
the clear-button click handler (the widget markup provides the clear
button alongside the input). Presence of the input is determined by the
injected markup. The data and searchFunc arguments are captured by the
handlers, which are modelled separately below. -/
def registerListenerEvents {α : Type} (hasSearchInput : Bool)
    (data : List α) (searchFunc : List α → String → List α)
    (w : Widget α) : Widget α :=
  if hasSearchInput then
    { w with inputFocused := true, listeners := true }
  else
    w

/-- Translation of the debounced input handler wired by
registerListenerEvents: it removes the d-none class from the clear button
when the current input value is non-empty and adds it back otherwise, then
renders debounceCallee of the current input value into the results region
(successful-render semantics; render failures are treated separately). -/
def inputEventHandler {α : Type} (data : List α)
    (searchFunc : List α → String → List α) (w : Widget α) : Widget α :=
  let w1 :=
    if w.inputValue.length > 0 then
      { w with clearHidden := false }
    else
      { w with clearHidden := true }
  { w1 with
    resultsRegion := Region.rendered (debounceCallee w.inputValue data searchFunc) }

/-- Translation of the clear-button click handler wired by
registerListenerEvents: it stops propagation, clears the input value,
refocuses the input, adds the d-none class to the clear button, then
renders debounceCallee of the now-empty input value into the results
region (successful-render semantics). -/
def clearClickHandler {α : Type} (data : List α)
    (searchFunc : List α → String → List α) (w : Widget α) : Widget α :=
  let w1 := { w with inputValue := "", inputFocused := true, clearHidden := true }
  { w1 with
    resultsRegion := Region.rendered (debounceCallee w1.inputValue data searchFunc) }

/-- Error raised inside init when the unsearchable-content region is absent
from the injected markup: querySelector returns null, so the innerHTML
append throws a TypeError, which the promise chain turns into a
rejection. -/
def unsearchableNullError : String :=
  "TypeError: unsearchableContentContainer is null"

/-- Continuation of init after the body markup was injected and the
optional unsearchable content handled: await showLoader, await
renderSearchResults with the full dataset, then call
registerListenerEvents; a rejection at an awaited step stops the chain and
is routed to the notification surface by the catch handler of init. -/
def initAfterBody {α : Type} (env : Env α) (data : List α)
    (searchFunc : List α → String → List α) (bodyContent : String)
    (w : Widget α) : Widget α :=
  match showLoader env w.resultsRegion with
  | .error e => { w with notified := some e }
  | .ok loaded =>
    let w2 := { w with resultsRegion := loaded }
    match renderSearchResults env w2.resultsRegion data with
    | .error e => { w2 with notified := some e }
    | .ok resultsShown =>
      registerListenerEvents (env.hasSearchInput bodyContent) data searchFunc
        { w2 with resultsRegion := resultsShown }

/-- Translation of init: when the body promise resolves, the markup is
assigned to the container innerHTML (replacing every sub-region with what
the markup provides); the unsearchable content, when truthy, is appended
into its region, and a missing region makes that append throw — the guard
is JS truthiness, so both null and the empty string skip the append; then
the loader is shown, the full dataset rendered and the listeners
registered. When the body promise rejects, or any later step of the chain
throws, the error goes to the notification surface via the catch handler
and nothing further runs. -/
def init {α : Type} (env : Env α) (bodyPromise : Except String String)
    (data : List α) (searchFunc : List α → String → List α)
    (unsearchableContent : Option String) (w : Widget α) : Widget α :=
  match bodyPromise with
  | .error e => { w with notified := some e }
  | .ok bodyContent =>
    let w1 : Widget α :=
      { w with
        containerHTML := some bodyContent
        unsearchableHTML := env.unsearchableInit bodyContent
        resultsRegion := Region.markup bodyContent
        inputValue := env.markupInputValue bodyContent
        inputFocused := false
        clearHidden := env.markupClearHidden bodyContent }
    match unsearchableContent with
    | none => initAfterBody env data searchFunc bodyContent w1
    | some uc =>
      if 0 < uc.length then
        if env.hasUnsearchableRegion bodyContent then
          initAfterBody env data searchFunc bodyContent
            { w1 with unsearchableHTML := w1.unsearchableHTML ++ uc }
        else
          { w1 with notified := some unsearchableNullError }
      else
        initAfterBody env data searchFunc bodyContent w1

/-- State of the body promise built by promisesAndResolvers: none while
pending, some v once resolved with v. -/
structure PromisePair (α : Type) where
  bodyPromise : Option α

/-- Translation of promisesAndResolvers: builds the pending body promise
whose resolver is handed back to the caller. -/
def promisesAndResolvers (α : Type) : PromisePair α :=
  { bodyPromise := none }

/-- Translation of the resolver captured by promisesAndResolvers: resolving
a pending promise with v makes it resolve to v; resolving an already
resolved promise is a no-op, as for any JS promise. -/
def bodyPromiseResolver {α : Type} (v : α) (p : PromisePair α) : PromisePair α :=
  match p.bodyPromise with
  | none => { bodyPromise := some v }
  | some _ => p

/-- Latencies, in abstract time units, of the four asynchronous external
calls made on the success path of init: renderForPromise on the loading
template, replaceNodeContents for the loader, renderForPromise on the
searchresults template, and replaceNodeContents for the results. -/
structure Latencies where
  loadTemplate : Nat
  loadReplace : Nat
  resTemplate : Nat
  resReplace : Nat

/-- Timestamps along the success path of init, derived from its await
structure: showLoader awaits renderForPromise but fires
replaceNodeContents without awaiting it, so the promise of showLoader
resolves once the loading template is rendered and init immediately calls
renderSearchResults, while the loader replacement completes on its own
later; renderSearchResults awaits both of its calls. -/
structure SuccessTiming where
  loadTemplateFinish : Nat
  loaderReplaceStart : Nat
  loaderReplaceFinish : Nat
  resultsRenderStart : Nat
  resultsTemplateFinish : Nat
  resultsReplaceFinish : Nat

/-- Timing of one successful init run as a function of the latencies of
the external calls, body injection taken as time zero. -/
def successTiming (l : Latencies) : SuccessTiming :=
  let loadTemplateFinish := l.loadTemplate
  let loaderReplaceStart := loadTemplateFinish
  let loaderReplaceFinish := loaderReplaceStart + l.loadReplace
  let resultsRenderStart := loaderReplaceStart
  let resultsTemplateFinish := resultsRenderStart + l.resTemplate
  let resultsReplaceFinish := resultsTemplateFinish + l.resReplace
  ⟨loadTemplateFinish, loaderReplaceStart, loaderReplaceFinish,
    resultsRenderStart, resultsTemplateFinish, resultsReplaceFinish⟩

/-- Modelled from the spec: the debounce utility imported from core/utils
is not under src. Trailing-edge debounce with a fixed quiet window: an
event schedules the handler at its time plus the delay, and a later event
arriving strictly inside that window discards the pending schedule. Events
are (time, input value) pairs in time order; the result lists each
(fire time, value the handler reads). -/
def debounce (delay : Nat) : List (Nat × String) → List (Nat × String)
  | [] => []
  | [(t, v)] => [(t + delay, v)]
  | (t, v) :: (s, u) :: rest =>
    if s < t + delay then
      debounce delay ((s, u) :: rest)
    else
      (t + delay, v) :: debounce delay ((s, u) :: rest)

/-- Checks that the times of the events are strictly increasing, starting
strictly after t. -/
def strictlyIncreasingFrom (t : Nat) : List (Nat × String) → Bool
  | [] => true
  | e :: rest => decide (t < e.1) && strictlyIncreasingFrom e.1 rest

/-- Last event of a non-empty event list given as head and tail. -/
def lastEvent (e : Nat × String) : List (Nat × String) → Nat × String
  | [] => e
  | f :: rest => lastEvent f rest

theorem lastEvent_time_le (e : Nat × String) (es : List (Nat × String))
    (h : strictlyIncreasingFrom e.1 es = true) : e.1 ≤ (lastEvent e es).1 := by
  induction es generalizing e with
  | nil => simp [lastEvent]
  | cons f rest ih =>
    simp only [strictlyIncreasingFrom, Bool.and_eq_true, decide_eq_true_iff] at h
    have h2 := ih f h.2
    simp only [lastEvent]
    omega

/-- Concrete widget state used by the witnesses: a fresh widget still in
its loading state, nothing injected, nothing wired, nothing notified. -/
def sampleWidget : Widget Nat :=
  { containerHTML := none
    unsearchableHTML := ""
    resultsRegion := Region.markup ""
    inputValue := ""
    inputFocused := false
    clearHidden := true
    listeners := false
    notified := none }

/-- Concrete environment where every render succeeds and the injected
markup provides every sub-region. -/
def envOk : Env Nat :=
  { hasUnsearchableRegion := fun _ => true
    hasSearchInput := fun _ => true
    unsearchableInit := fun _ => ""
    markupInputValue := fun _ => ""
    markupClearHidden := fun _ => true
    renderLoadingTpl := Except.ok ()
    renderResultsTpl := fun _ => Except.ok () }

/-- Concrete environment whose loading template render fails. -/
def envFailLoad : Env Nat :=
  { envOk with renderLoadingTpl := Except.error "loadfail" }

/-- Concrete environment whose results template render fails. -/
def envFailResults : Env Nat :=
  { envOk with renderResultsTpl := fun _ => Except.error "resultsfail" }

/-- Concrete environment whose markup never provides the
unsearchable-content region. -/
def envNoRegion : Env Nat :=
  { envOk with hasUnsearchableRegion := fun _ => false }

/-- C1: for every dataset and query string, an empty query makes the
filtering step return the dataset itself, unmodified and order-preserving,
and a non-empty query makes it return exactly the result of the
caller-supplied search function, with no further filtering imposed by the
controller. -/
theorem filter_policy {α : Type} (data : List α) (q : String)
    (f : List α → String → List α) :
    (q.length = 0 → debounceCallee q data f = data) ∧
    (0 < q.length → debounceCallee q data f = f data q) := by
  constructor
  · intro h
    simp [debounceCallee, h]
  · intro h
    simp [debounceCallee, Nat.pos_iff_ne_zero.mp h, h]

/-- Witness for C1 at the empty query and at the query ab over the dataset
with elements one and two. -/
theorem filter_policy_witness :
    (String.length "" = 0 ∧
      debounceCallee "" [1, 2] (fun _ _ => ([] : List Nat)) = [1, 2]) ∧
    (0 < String.length "ab" ∧
      debounceCallee "ab" [1, 2] (fun _ _ => ([] : List Nat)) = []) := by
  refine ⟨⟨rfl, ?_⟩, ⟨by decide, ?_⟩⟩
  · exact (filter_policy [1, 2] "" (fun _ _ => [])).1 rfl
  · exact (filter_policy [1, 2] "ab" (fun _ _ => [])).2 (by decide)

/-- C2: when the body promise rejects with e, the notification surface
receives exactly e and nothing else happens: no body injection, no loader,
no results render, no listener wiring; every widget field other than the
notified error is left as it was. -/
theorem init_reject_notifies {α : Type} (env : Env α) (e : String)
    (data : List α) (searchFunc : List α → String → List α)
    (unsearchableContent : Option String) (w : Widget α) :
    init env (Except.error e) data searchFunc unsearchableContent w =
      { w with notified := some e } := rfl

/-- C3 as stated is false: with every external call taking one time unit,
the loader DOM replacement completes at time two while the first results
render begins at time one, because showLoader does not await
replaceNodeContents. -/
theorem loader_timing_counterexample :
    (successTiming ⟨1, 1, 1, 1⟩).loaderReplaceFinish = 2 ∧
    (successTiming ⟨1, 1, 1, 1⟩).resultsRenderStart = 1 ∧
    ¬ (successTiming ⟨1, 1, 1, 1⟩).loaderReplaceFinish <
        (successTiming ⟨1, 1, 1, 1⟩).resultsRenderStart :=
  ⟨rfl, rfl, by decide⟩

/-- C3 amended: in every successful run of init, the loading template
render completes, and the DOM replacement that shows the loader is
initiated, no later than the moment the first results render begins; the
completion of that replacement is not awaited and can land later. -/
theorem loader_before_results (l : Latencies) :
    (successTiming l).loadTemplateFinish ≤ (successTiming l).resultsRenderStart ∧
    (successTiming l).loaderReplaceStart ≤ (successTiming l).resultsRenderStart := by
  constructor <;> simp [successTiming]

/-- C4: registerListenerEvents on a container whose search input is absent
returns without throwing, mutates nothing and registers nothing: the
widget state is exactly what it was. -/
theorem register_no_input_noop {α : Type} (data : List α)
    (searchFunc : List α → String → List α) (w : Widget α) :
    registerListenerEvents false data searchFunc w = w := rfl

/-- C5: firing the clear-button click handler and firing the input handler
with the input value set to the empty string agree on the observables the
claim names: both render the full unfiltered dataset into the results
region and both hide the clear affordance. -/
theorem clear_equiv_empty_input {α : Type} (data : List α)
    (searchFunc : List α → String → List α) (w : Widget α) :
    (clearClickHandler data searchFunc w).resultsRegion = Region.rendered data ∧
    (clearClickHandler data searchFunc w).clearHidden = true ∧
    (inputEventHandler data searchFunc { w with inputValue := "" }).resultsRegion =
      Region.rendered data ∧
    (inputEventHandler data searchFunc { w with inputValue := "" }).clearHidden = true := by
  refine ⟨?_, rfl, ?_, ?_⟩ <;>
    simp [clearClickHandler, inputEventHandler, debounceCallee]

/-- C6: when N input events all fall inside a window shorter than the
300ms quiet period, the debounced handler fires exactly once, reading the
input value as of the last event; the schedules of the earlier events are
discarded before ever starting a render. -/
theorem debounce_coalesces (e : Nat × String) (es : List (Nat × String))
    (hsort : strictlyIncreasingFrom e.1 es = true)
    (hwin : (lastEvent e es).1 < e.1 + 300) :
    debounce 300 (e :: es) =
      [((lastEvent e es).1 + 300, (lastEvent e es).2)] := by
  induction es generalizing e with
  | nil =>
    obtain ⟨t, v⟩ := e
    simp [debounce, lastEvent]
  | cons f rest ih =>
    simp only [strictlyIncreasingFrom, Bool.and_eq_true, decide_eq_true_iff] at hsort
    have hle := lastEvent_time_le f rest hsort.2
    simp only [lastEvent] at hwin ⊢
    have hlt : f.1 < e.1 + 300 := lt_of_le_of_lt hle hwin
    have hwin2 : (lastEvent f rest).1 < f.1 + 300 := by
      have := hsort.1
      omega
    obtain ⟨t, v⟩ := e
    obtain ⟨s, u⟩ := f
    simp only [debounce, if_pos hlt]
    exact ih (s, u) hsort.2 hwin2

/-- Witness for C6: three keystrokes at times zero, one hundred and two
hundred fifty, inside a 250ms window, fire one render at time five hundred
fifty with the last value. -/
theorem debounce_coalesces_witness :
    strictlyIncreasingFrom (0, "a").1 [(100, "ab"), (250, "abc")] = true ∧
    (lastEvent (0, "a") [(100, "ab"), (250, "abc")]).1 < (0, "a").1 + 300 ∧
    debounce 300 [(0, "a"), (100, "ab"), (250, "abc")] = [(550, "abc")] := by
  refine ⟨by decide, by decide, ?_⟩
  exact debounce_coalesces (0, "a") [(100, "ab"), (250, "abc")]
    (by decide) (by decide)

/-- C7: a loading or results template failure is caught nowhere locally:
showLoader and renderSearchResults hand the rejection to their caller
unchanged, and inside init the rejection travels the outer promise chain
into the rejection handler of that chain, the notification surface. -/
theorem template_failure_propagates {α : Type} (env : Env α) (e : String)
    (data : List α) (searchFunc : List α → String → List α)
    (region : Region α) (body : String) (w : Widget α) :
    (env.renderLoadingTpl = Except.error e →
      showLoader env region = Except.error e) ∧
    (env.renderResultsTpl data = Except.error e →
      renderSearchResults env region data = Except.error e) ∧
    (env.renderLoadingTpl = Except.error e →
      (init env (Except.ok body) data searchFunc none w).notified = some e) ∧
    (env.renderLoadingTpl = Except.ok () →
      env.renderResultsTpl data = Except.error e →
      (init env (Except.ok body) data searchFunc none w).notified = some e) := by
  refine ⟨?_, ?_, ?_, ?_⟩
  · intro h
    simp [showLoader, h]
  · intro h
    simp [renderSearchResults, h]
  · intro h
    simp [init, initAfterBody, showLoader, h]
  · intro h1 h2
    simp [init, initAfterBody, showLoader, renderSearchResults, h1, h2]

/-- Witness for C7: a failing loading template surfaces its error from
showLoader and from init, and a failing results template surfaces its
error from renderSearchResults and from init. -/
theorem template_failure_propagates_witness :
    showLoader envFailLoad (Region.markup "b") = Except.error "loadfail" ∧
    (init envFailLoad (Except.ok "b") [1] (fun d _ => d) none sampleWidget).notified =
      some "loadfail" ∧
    renderSearchResults envFailResults (Region.markup "b") [1] =
      Except.error "resultsfail" ∧
    (init envFailResults (Except.ok "b") [1] (fun d _ => d) none sampleWidget).notified =
      some "resultsfail" :=
  ⟨(template_failure_propagates envFailLoad "loadfail" [1] (fun d _ => d)
      (Region.markup "b") "b" sampleWidget).1 rfl,
   (template_failure_propagates envFailLoad "loadfail" [1] (fun d _ => d)
      (Region.markup "b") "b" sampleWidget).2.2.1 rfl,
   (template_failure_propagates envFailResults "resultsfail" [1] (fun d _ => d)
      (Region.markup "b") "b" sampleWidget).2.1 rfl,
   (template_failure_propagates envFailResults "resultsfail" [1] (fun d _ => d)
      (Region.markup "b") "b" sampleWidget).2.2.2 rfl rfl⟩

/-- C8: renderSearchResults is idempotent: when a call on some region
state succeeds with a new region state, calling it again with the same
arguments on that new state yields the very same final state. -/
theorem render_results_idempotent {α : Type} (env : Env α) (data : List α)
    (region next : Region α)
    (h : renderSearchResults env region data = Except.ok next) :
    renderSearchResults env next data = Except.ok next := by
  unfold renderSearchResults at h ⊢
  cases hr : env.renderResultsTpl data with
  | error e => rw [hr] at h; simp at h
  | ok u =>
    rw [hr] at h
    simp only [] at h ⊢
    simpa using h

/-- Witness for C8: rendering the two-element dataset over the raw markup
region succeeds, and rendering again over the produced region reproduces
the same final region. -/
theorem render_results_idempotent_witness :
    renderSearchResults envOk (Region.markup "b") [1, 2] =
      Except.ok (Region.rendered [1, 2]) ∧
    renderSearchResults envOk (Region.rendered [1, 2]) [1, 2] =
      Except.ok (Region.rendered [1, 2]) :=
  ⟨rfl, render_results_idempotent envOk [1, 2] (Region.markup "b")
    (Region.rendered [1, 2]) rfl⟩

/-- C9: promisesAndResolvers takes no input, always returns a pending
promise paired with its resolver, and resolving with any value v makes
the promise resolve to exactly v. -/
theorem promises_and_resolvers_resolves (α : Type) (v : α) :
    (promisesAndResolvers α).bodyPromise = none ∧
    (bodyPromiseResolver v (promisesAndResolvers α)).bodyPromise = some v :=
  ⟨rfl, rfl⟩

/-- C10 as stated is false: the guard at the unsearchable-content append
is JS truthiness, for which the empty string is falsy, so calling init
with the non-null unsearchable content given by the empty string and a
markup lacking the unsearchable region does not abort at all: setup runs
to the end, the results are rendered, the listeners are wired and nothing
is notified. -/
theorem init_empty_unsearchable_counterexample :
    (init envNoRegion (Except.ok "b") [1] (fun d _ => d) (some "")
        sampleWidget).notified = none ∧
    (init envNoRegion (Except.ok "b") [1] (fun d _ => d) (some "")
        sampleWidget).resultsRegion = Region.rendered [1] ∧
    (init envNoRegion (Except.ok "b") [1] (fun d _ => d) (some "")
        sampleWidget).listeners = true :=
  ⟨rfl, rfl, rfl⟩

/-- C10 amended: when init gets truthy, that is non-null and non-empty,
unsearchable content but the resolved markup has no unsearchable-content
region, setup aborts right after the body injection: the null-append
error reaches the notification surface, the results region still holds
the bare injected markup, so neither the loading placeholder nor the
results were ever rendered, and no listeners were wired. -/
theorem init_missing_unsearchable_region {α : Type} (env : Env α)
    (data : List α) (searchFunc : List α → String → List α)
    (uc body : String) (w : Widget α)
    (huc : 0 < uc.length)
    (h : env.hasUnsearchableRegion body = false) :
    (init env (Except.ok body) data searchFunc (some uc) w).notified =
      some unsearchableNullError ∧
    (init env (Except.ok body) data searchFunc (some uc) w).containerHTML =
      some body ∧
    (init env (Except.ok body) data searchFunc (some uc) w).resultsRegion =
      Region.markup body ∧
    (init env (Except.ok body) data searchFunc (some uc) w).resultsRegion ≠
      Region.loading ∧
    (∀ items : List α,
      (init env (Except.ok body) data searchFunc (some uc) w).resultsRegion ≠
        Region.rendered items) ∧
    (init env (Except.ok body) data searchFunc (some uc) w).listeners =
      w.listeners := by
  simp [init, huc, h]

/-- Witness for C10 on the non-empty unsearchable content extra and a
concrete environment whose markup lacks the unsearchable region. -/
theorem init_missing_unsearchable_witness :
    0 < String.length "extra" ∧
    envNoRegion.hasUnsearchableRegion "b" = false ∧
    (init envNoRegion (Except.ok "b") [1] (fun d _ => d) (some "extra")
        sampleWidget).notified = some unsearchableNullError ∧
    (init envNoRegion (Except.ok "b") [1] (fun d _ => d) (some "extra")
        sampleWidget).listeners = false :=
  ⟨by decide, rfl,
   (init_missing_unsearchable_region envNoRegion [1] (fun d _ => d)
      "extra" "b" sampleWidget (by decide) rfl).1,
   (init_missing_unsearchable_region envNoRegion [1] (fun d _ => d)
      "extra" "b" sampleWidget (by decide) rfl).2.2.2.2.2⟩

end BaseWidget
